import Mathlib

/-!
Verification of the profile views module of the Misago forum application
(misago/users/views/profile.py): the follow/block action transaction with
denormalized counter maintenance, the warning-activity windowing
computation, the warning-progress percentage, profile resolution with
slug validation, restricted page visibility, and action response shaping.

The store is embedded as an explicit state: directed follow and block
edge sets over user ids, plus the two denormalized counter fields kept
on every identity record.
-/

namespace Misago

/-- User ids, as used for primary keys of identity records. -/
abbrev UserId := Nat

/-- The slice of the persistent store the profile actions touch: the
`follows` and `blocks` relationship tables (sets of directed edges
actor -> target) and the denormalized `followers` / `following` counter
fields of every identity record. -/
structure DB where
  follows : Finset (UserId × UserId)
  blocks : Finset (UserId × UserId)
  followers : UserId → Nat
  following : UserId → Nat

/-- Number of rows of the edge table whose target is `x`: the value of
`profile.followed_by.count()` when the edge table is `s`. -/
def countFollowedBy (s : Finset (UserId × UserId)) (x : UserId) : Nat :=
  (s.filter (fun e => e.2 = x)).card

/-- Number of rows of the edge table whose actor is `x`: the value of
`user.follows.count()` when the edge table is `s`. -/
def countFollows (s : Finset (UserId × UserId)) (x : UserId) : Nat :=
  (s.filter (fun e => e.1 = x)).card

/-- Toggle membership of the directed edge (r, t) in an edge table:
remove it when present, insert it when absent. -/
def toggleEdge (s : Finset (UserId × UserId)) (r t : UserId) : Finset (UserId × UserId) :=
  if (r, t) ∈ s then s.erase (r, t) else insert (r, t) s

/-- The state mutation of `follow_user` (profile.py lines 215-229): toggle
the follow edge requester -> target, then recompute the target's
`followers` field from `followed_by.count()` and the requester's
`following` field from `follows.count()`, both counted after the toggle.
Returns the new store and the `followed` boolean. -/
def follow_user (db : DB) (r t : UserId) : DB × Bool :=
  let toggled : DB × Bool :=
    if (r, t) ∈ db.follows then
      ({ db with follows := db.follows.erase (r, t) }, false)
    else
      ({ db with follows := insert (r, t) db.follows }, true)
  let db1 := toggled.1
  let db2 := { db1 with followers := Function.update db1.followers t (countFollowedBy db1.follows t) }
  let db3 := { db2 with following := Function.update db2.following r (countFollows db2.follows r) }
  (db3, toggled.2)

/-- The state mutation of `block_user` (profile.py lines 244-252): toggle
the block edge requester -> target; no counter field is touched.
Returns the new store and the `blocked` boolean. -/
def block_user (db : DB) (r t : UserId) : DB × Bool :=
  if (r, t) ∈ db.blocks then
    ({ db with blocks := db.blocks.erase (r, t) }, false)
  else
    ({ db with blocks := insert (r, t) db.blocks }, true)

/-- Structural description of the store produced by `follow_user`. -/
lemma follow_user_fst (db : DB) (r t : UserId) :
    (follow_user db r t).1 =
      { follows := toggleEdge db.follows r t
        blocks := db.blocks
        followers := Function.update db.followers t (countFollowedBy (toggleEdge db.follows r t) t)
        following := Function.update db.following r (countFollows (toggleEdge db.follows r t) r) } := by
  by_cases h : (r, t) ∈ db.follows <;> simp [follow_user, toggleEdge, h]

/-- Toggling the same edge twice restores the edge table. -/
lemma toggleEdge_toggleEdge (s : Finset (UserId × UserId)) (r t : UserId) :
    toggleEdge (toggleEdge s r t) r t = s := by
  unfold toggleEdge
  by_cases h : (r, t) ∈ s
  · rw [if_pos h, if_neg (Finset.not_mem_erase _ _), Finset.insert_erase h]
  · rw [if_neg h, if_pos (Finset.mem_insert_self _ _), Finset.erase_insert h]

/-- Toggling edge (r, t) does not change the followed-by count of any
user other than t. -/
lemma countFollowedBy_toggleEdge_ne (s : Finset (UserId × UserId)) (r t x : UserId)
    (hx : x ≠ t) : countFollowedBy (toggleEdge s r t) x = countFollowedBy s x := by
  unfold toggleEdge countFollowedBy
  by_cases h : (r, t) ∈ s
  · rw [if_pos h, Finset.filter_erase, Finset.erase_eq_of_not_mem]
    intro hmem
    exact hx ((Finset.mem_filter.mp hmem).2.symm ▸ rfl)
  · rw [if_neg h, Finset.filter_insert, if_neg]
    exact fun hEq => hx hEq.symm

/-- Toggling edge (r, t) does not change the follows count of any user
other than r. -/
lemma countFollows_toggleEdge_ne (s : Finset (UserId × UserId)) (r t x : UserId)
    (hx : x ≠ r) : countFollows (toggleEdge s r t) x = countFollows s x := by
  unfold toggleEdge countFollows
  by_cases h : (r, t) ∈ s
  · rw [if_pos h, Finset.filter_erase, Finset.erase_eq_of_not_mem]
    intro hmem
    exact hx ((Finset.mem_filter.mp hmem).2.symm ▸ rfl)
  · rw [if_neg h, Finset.filter_insert, if_neg]
    exact fun hEq => hx hEq.symm

/-- The counter-consistency invariant of the data model: every identity
record's denormalized `followers` and `following` fields agree with the
cardinalities computed from the authoritative edge table. -/
def Consistent (db : DB) : Prop :=
  ∀ x, db.followers x = countFollowedBy db.follows x ∧
       db.following x = countFollows db.follows x

/-- One follow action preserves the counter-consistency invariant. -/
lemma follow_user_preserves_consistent (db : DB) (r t : UserId)
    (h : Consistent db) : Consistent (follow_user db r t).1 := by
  rw [follow_user_fst]
  intro x
  dsimp only
  constructor
  · by_cases hx : x = t
    · subst hx
      simp [Function.update_same]
    · rw [Function.update_noteq hx, countFollowedBy_toggleEdge_ne _ _ _ _ hx]
      exact (h x).1
  · by_cases hx : x = r
    · subst hx
      simp [Function.update_same]
    · rw [Function.update_noteq hx, countFollows_toggleEdge_ne _ _ _ _ hx]
      exact (h x).2

/-- A sequence of completed follow actions, each given as a pair
(requester, target), replayed against the store in order. -/
def followActions (db : DB) (acts : List (UserId × UserId)) : DB :=
  acts.foldl (fun d p => (follow_user d p.1 p.2).1) db

/-- The set of identities that follow x (the sources of the edges whose
target is x). -/
def followersSet (s : Finset (UserId × UserId)) (x : UserId) : Finset UserId :=
  (s.filter (fun e => e.2 = x)).image Prod.fst

/-- The set of identities that x follows (the targets of the edges whose
source is x). -/
def followingSet (s : Finset (UserId × UserId)) (x : UserId) : Finset UserId :=
  (s.filter (fun e => e.1 = x)).image Prod.snd

/-- The number of identities that follow x equals the count of edge rows
whose target is x: projecting to the source is injective on those rows. -/
lemma card_followersSet (s : Finset (UserId × UserId)) (x : UserId) :
    (followersSet s x).card = countFollowedBy s x := by
  apply Finset.card_image_of_injOn
  intro a ha b hb hab
  have ha2 := (Finset.mem_filter.mp ha).2
  have hb2 := (Finset.mem_filter.mp hb).2
  exact Prod.ext hab (by simp only [ha2, hb2])

/-- The number of identities x follows equals the count of edge rows
whose source is x. -/
lemma card_followingSet (s : Finset (UserId × UserId)) (x : UserId) :
    (followingSet s x).card = countFollows s x := by
  apply Finset.card_image_of_injOn
  intro a ha b hb hab
  have ha2 := (Finset.mem_filter.mp ha).2
  have hb2 := (Finset.mem_filter.mp hb).2
  exact Prod.ext (by simp only [ha2, hb2]) hab

/-- A store with no relationship edges and all counters zero. -/
def dbEmpty : DB :=
  { follows := ∅
    blocks := ∅
    followers := fun _ => 0
    following := fun _ => 0 }

lemma dbEmpty_consistent : Consistent dbEmpty := by
  intro x
  constructor <;> simp [dbEmpty, countFollowedBy, countFollows]

/-- C1: for any requester r and target t, invoking the follow action twice
in sequence is a round-trip: after the second invocation the follow edge
r -> t, the target's followers counter and the requester's following
counter all equal their values before the first invocation. The starting
counters satisfy the counter-consistency invariant the data model
maintains at every commit. -/
theorem follow_twice_roundtrip (db : DB) (r t : UserId)
    (hT : db.followers t = countFollowedBy db.follows t)
    (hR : db.following r = countFollows db.follows r) :
    (((r, t) ∈ ((follow_user (follow_user db r t).1 r t).1).follows) ↔ (r, t) ∈ db.follows) ∧
    ((follow_user (follow_user db r t).1 r t).1).followers t = db.followers t ∧
    ((follow_user (follow_user db r t).1 r t).1).following r = db.following r := by
  have hs := toggleEdge_toggleEdge db.follows r t
  rw [follow_user_fst, follow_user_fst]
  dsimp only
  rw [hs]
  refine ⟨Iff.rfl, ?_, ?_⟩
  · rw [Function.update_same]
    exact hT.symm
  · rw [Function.update_same]
    exact hR.symm

/-- Witness for C1 at a concrete store and pair of users. -/
theorem follow_twice_roundtrip_witness :
    (((1, 2) ∈ ((follow_user (follow_user dbEmpty 1 2).1 1 2).1).follows) ↔ (1, 2) ∈ dbEmpty.follows) ∧
    ((follow_user (follow_user dbEmpty 1 2).1 1 2).1).followers 2 = dbEmpty.followers 2 ∧
    ((follow_user (follow_user dbEmpty 1 2).1 1 2).1).following 1 = dbEmpty.following 1 :=
  follow_twice_roundtrip dbEmpty 1 2 (by decide) (by decide)

/-- C2: after any sequence of completed follow actions, starting from a
store satisfying the counter-consistency invariant, every identity's
followers field equals the number of identities that follow it, and its
following field equals the number of identities it follows. -/
theorem counters_match_sets (db : DB) (hdb : Consistent db)
    (acts : List (UserId × UserId)) (x : UserId) :
    (followActions db acts).followers x = (followersSet (followActions db acts).follows x).card ∧
    (followActions db acts).following x = (followingSet (followActions db acts).follows x).card := by
  have h : Consistent (followActions db acts) := by
    induction acts generalizing db with
    | nil => exact hdb
    | cons a rest ih => exact ih _ (follow_user_preserves_consistent db a.1 a.2 hdb)
  rw [card_followersSet, card_followingSet]
  exact h x

/-- Witness for C2 on a concrete action sequence. -/
theorem counters_match_sets_witness :
    (followActions dbEmpty [(1, 2), (3, 2), (1, 2)]).followers 2 =
      (followersSet (followActions dbEmpty [(1, 2), (3, 2), (1, 2)]).follows 2).card ∧
    (followActions dbEmpty [(1, 2), (3, 2), (1, 2)]).following 2 =
      (followingSet (followActions dbEmpty [(1, 2), (3, 2), (1, 2)]).follows 2).card :=
  counters_match_sets dbEmpty dbEmpty_consistent [(1, 2), (3, 2), (1, 2)] 2

/-- The is_active marking loop of the warnings view (profile.py lines
138-143), applied to the cancellation flags of the page's warning
records in their most-recent-first order, threading the running
active_warnings budget. A canceled warning is marked inactive and
leaves the budget unchanged; a non-canceled warning is marked active
exactly when the budget is positive, and the budget is then decremented
regardless of the resulting boolean. -/
def warnings_mark_active (activeWarnings : Int) (canceled : List Bool) : List Bool :=
  match canceled with
  | [] => []
  | c :: rest =>
    if c then false :: warnings_mark_active activeWarnings rest
    else decide (activeWarnings > 0) :: warnings_mark_active (activeWarnings - 1) rest

/-- The warnings view's activity assignment (line 137 plus the loop): the
budget starts at warning_level - start_index + 1, where start_index is
the 1-based position of the page's first record. -/
def warnings_is_active (warningLevel startIndex : Int) (canceled : List Bool) : List Bool :=
  warnings_mark_active (warningLevel - startIndex + 1) canceled

/-- Number of non-canceled flags in a list of cancellation flags. -/
def countNotCanceled (l : List Bool) : Nat := (l.filter (fun c => !c)).length

lemma countNotCanceled_cons_true (l : List Bool) :
    countNotCanceled (true :: l) = countNotCanceled l := by
  simp [countNotCanceled]

lemma countNotCanceled_cons_false (l : List Bool) :
    countNotCanceled (false :: l) = countNotCanceled l + 1 := by
  simp [countNotCanceled, List.filter_cons]

/-- Closed form of the marking loop: the i-th flag (0-based) is inactive
when canceled, and otherwise active exactly when the initial budget
exceeds the number of non-canceled records strictly before position i. -/
lemma warnings_mark_active_getD (b : Int) (l : List Bool) (i : Nat) (hi : i < l.length) :
    (warnings_mark_active b l).getD i false =
      if l.getD i false then false
      else decide (b - (countNotCanceled (l.take i) : Int) > 0) := by
  induction l generalizing b i with
  | nil => exact absurd hi (by simp)
  | cons c rest ih =>
    cases i with
    | zero =>
      cases c <;> simp [warnings_mark_active, countNotCanceled]
    | succ i =>
      have hi' : i < rest.length := by simpa using hi
      cases c with
      | true =>
        simpa [warnings_mark_active, List.take_succ_cons, countNotCanceled_cons_true]
          using ih b i hi'
      | false =>
        have h2 := ih (b - 1) i hi'
        simp only [warnings_mark_active, Bool.false_eq_true, if_false, List.getD_cons_succ,
          List.take_succ_cons, countNotCanceled_cons_false] at h2 ⊢
        rw [h2]
        cases hr : rest.getD i false
        · simp only [hr, Bool.false_eq_true, if_false]
          rw [decide_eq_decide]
          push_cast
          omega
        · simp [hr]

/-- C3: the warnings view assigns is_active from a budget initialized to
warning_level - start_index + 1; iterating the page most-recent-first, a
canceled warning is marked inactive with the budget unchanged, and a
non-canceled warning is marked active exactly when the budget is still
positive, the budget then being decremented regardless: equivalently,
the i-th record of the page is active iff it is not canceled and the
initial budget exceeds the number of non-canceled records before it. In
particular, level 3, start index 1 and flags [F, T, F, F, F] yield
[T, F, T, T, F]. -/
theorem warnings_is_active_spec :
    (∀ (warningLevel startIndex : Int) (flags : List Bool) (i : Nat), i < flags.length →
      (warnings_is_active warningLevel startIndex flags).getD i false =
        if flags.getD i false then false
        else decide (warningLevel - startIndex + 1 - (countNotCanceled (flags.take i) : Int) > 0)) ∧
    warnings_is_active 3 1 [false, true, false, false, false] =
      [true, false, true, true, false] := by
  constructor
  · intro warningLevel startIndex flags i hi
    exact warnings_mark_active_getD _ flags i hi
  · decide

/-- Witness for C3 at the last record of the example page. -/
theorem warnings_is_active_spec_witness :
    (warnings_is_active 3 1 [false, true, false, false, false]).getD 4 false =
      if ([false, true, false, false, false] : List Bool).getD 4 false then false
      else decide ((3 : Int) - 1 + 1 -
        (countNotCanceled (([false, true, false, false, false] : List Bool).take 4) : Int) > 0) :=
  warnings_is_active_spec.1 3 1 [false, true, false, false, false] 4 (by decide)

/-- The warning progress computation of the warnings view (lines
145-149). numLevels embeds len(get_warning_levels()), the number of
configured warning levels (an external collaborator); warningLevel
embeds get_user_warning_level(profile), the warning level ordinal.
levels_total = numLevels - 1 is inlined; the source's truthiness test
admits any nonzero integer, and Python division of ints floors, embedded
as Int.fdiv. -/
def warning_progress (numLevels warningLevel : Nat) : Int :=
  if (numLevels : Int) - 1 ≠ 0 ∧ warningLevel ≠ 0 then
    100 - Int.fdiv ((warningLevel : Int) * 100) ((numLevels : Int) - 1)
  else
    100

/-- In the guarded region the flooring division coincides with the
truncating Nat division of the same operands. -/
lemma warning_progress_eq_of_pos (numLevels warningLevel : Nat)
    (h1 : 0 < numLevels - 1) (h2 : 0 < warningLevel) :
    warning_progress numLevels warningLevel =
      100 - ((warningLevel * 100 / (numLevels - 1) : Nat) : Int) := by
  have hn : 1 < numLevels := by omega
  unfold warning_progress
  rw [if_pos]
  · have hcast : ((numLevels : Int) - 1) = ((numLevels - 1 : Nat) : Int) := by
      push_cast [hn.le]
      ring
    rw [hcast, show ((warningLevel : Int) * 100) = ((warningLevel * 100 : Nat) : Int) by push_cast; ring]
    rw [← Int.ofNat_fdiv]
  · exact ⟨by omega, by omega⟩

/-- C4: warning_progress is 100 - ordinal * 100 / levels_total with
truncating integer division when levels_total > 0 and the ordinal is
positive, and 100 otherwise; with levels_total = 3 (four configured
levels) and ordinal 1 it is 67, and with ordinal 0 it is 100. -/
theorem warning_progress_spec :
    (∀ (numLevels warningLevel : Nat), 1 ≤ numLevels →
      (0 < numLevels - 1 → 0 < warningLevel →
        warning_progress numLevels warningLevel =
          100 - ((warningLevel * 100 / (numLevels - 1) : Nat) : Int)) ∧
      (numLevels - 1 = 0 ∨ warningLevel = 0 →
        warning_progress numLevels warningLevel = 100)) ∧
    warning_progress 4 1 = 67 ∧ warning_progress 4 0 = 100 := by
  refine ⟨?_, by decide, by decide⟩
  intro numLevels warningLevel h1
  constructor
  · exact warning_progress_eq_of_pos numLevels warningLevel
  · intro hor
    unfold warning_progress
    rw [if_neg]
    rintro ⟨ha, hb⟩
    rcases hor with h | h <;> omega

/-- Witness for C4 at four configured levels and ordinal 1. -/
theorem warning_progress_spec_witness :
    warning_progress 4 1 = 100 - ((1 * 100 / (4 - 1) : Nat) : Int) :=
  (warning_progress_spec.1 4 1 (by decide)).1 (by decide) (by decide)

/-- C10 as frozen is false: with 201 configured levels, levels_total is
200 > 0 and ordinal 201 exceeds it, yet the computed progress is 0, not
negative (20100 / 200 floors to 100 exactly). -/
theorem warning_progress_counterexample :
    0 < (201 : Nat) - 1 ∧ (201 : Nat) - 1 < 201 ∧
    warning_progress 201 201 = 0 ∧ ¬ warning_progress 201 201 < 0 := by
  decide

/-- C10 amended: the progress computation is not clamped to [0, 100]; it
goes strictly negative whenever 0 < levels_total ≤ 100 and the ordinal
exceeds levels_total (the counterexample shows the bound on levels_total
is needed: levels_total = 200, ordinal = 201 gives 0). -/
theorem warning_progress_negative (numLevels warningLevel : Nat)
    (h1 : 0 < numLevels - 1) (h2 : numLevels - 1 ≤ 100)
    (h3 : numLevels - 1 < warningLevel) :
    warning_progress numLevels warningLevel < 0 := by
  have h0 : 0 < warningLevel := by omega
  rw [warning_progress_eq_of_pos numLevels warningLevel h1 h0]
  have hq : 101 ≤ warningLevel * 100 / (numLevels - 1) := by
    rw [Nat.le_div_iff_mul_le h1]
    omega
  generalize warningLevel * 100 / (numLevels - 1) = q at hq ⊢
  omega

/-- Witness for the amended C10: levels_total = 3, ordinal = 5 gives a
negative progress (-66). -/
theorem warning_progress_negative_witness : warning_progress 4 5 < 0 :=
  warning_progress_negative 4 5 (by decide) (by decide) (by decide)

/-- C9: a block action mutates only the blocks edge set: the followers and
following counter fields of every identity (requester and target
included) and the follows edge table are unchanged; the blocks table is
toggled. -/
theorem block_user_frame (db : DB) (r t : UserId) :
    ((block_user db r t).1).followers = db.followers ∧
    ((block_user db r t).1).following = db.following ∧
    ((block_user db r t).1).follows = db.follows ∧
    ((block_user db r t).1).blocks = toggleEdge db.blocks r t := by
  by_cases h : (r, t) ∈ db.blocks <;> simp [block_user, toggleEdge, h]

/-- Modelled from the spec: User.is_following and the anonymous user's
is_following method live outside this module (misago.users models); per
the spec an unauthenticated viewer follows no one, and an authenticated
viewer follows exactly the identities in their follows edge set. The
viewer is none when unauthenticated. -/
def is_following (db : DB) (viewer : Option UserId) (t : UserId) : Bool :=
  match viewer with
  | none => false
  | some u => decide ((u, t) ∈ db.follows)

/-- The is_followed attachment of the profile_view decorator (lines
36-39): gated on the can_follow permission and the viewer's
is_following check. -/
def profile_is_followed (canFollow : Bool) (db : DB) (viewer : Option UserId) (t : UserId) : Bool :=
  if canFollow then is_following db viewer t else false

/-- C5: the attached is_followed flag is true iff the permission set
grants can_follow and the viewer is authenticated and already follows
the resolved identity; it is false whenever the viewer is
unauthenticated or the permission is denied. -/
theorem is_followed_spec (canFollow : Bool) (db : DB) (viewer : Option UserId) (t : UserId) :
    (profile_is_followed canFollow db viewer t = true ↔
      canFollow = true ∧ ∃ u, viewer = some u ∧ (u, t) ∈ db.follows) ∧
    (viewer = none ∨ canFollow = false → profile_is_followed canFollow db viewer t = false) := by
  constructor
  · cases viewer with
    | none => cases canFollow <;> simp [profile_is_followed, is_following]
    | some u => cases canFollow <;> simp [profile_is_followed, is_following]
  · rintro (h | h) <;> subst h
    · cases canFollow <;> simp [profile_is_followed, is_following]
    · simp [profile_is_followed]

/-- Witness for C5: an unauthenticated viewer gets is_followed false even
with the permission granted. -/
theorem is_followed_spec_witness : profile_is_followed true dbEmpty none 2 = false :=
  (is_followed_spec true dbEmpty none 2).2 (Or.inl rfl)

/-- The NotFound failure, as surfaced by raising Http404. -/
inductive Http404 where
  | notFound
  deriving DecidableEq

/-- The identity record fields the resolver inspects: primary key and
canonical slug. -/
structure ProfileRecord where
  id : UserId
  slug : String
  deriving DecidableEq

/-- Modelled from the spec: validate_slug (misago.core.shortcuts, outside
src/) fails with NotFound when the supplied slug differs from the
resolved profile's canonical slug, and passes otherwise; a slug mismatch
is a hard failure, never silently corrected. -/
def validate_slug (profile : ProfileRecord) (userSlug : String) : Except Http404 Unit :=
  if profile.slug = userSlug then Except.ok () else Except.error Http404.notFound

/-- The resolution step of the profile_view decorator (lines 25-31):
get_object_or_404 on the requested id over the identity store, then
slug validation. The store is a list of identity records and lookup
returns the first record carrying the requested id. -/
def profile_view_resolve (users : List ProfileRecord) (userId : UserId) (userSlug : String) :
    Except Http404 ProfileRecord :=
  match users.find? (fun u => u.id == userId) with
  | none => Except.error Http404.notFound
  | some profile => (validate_slug profile userSlug).map (fun _ => profile)

/-- C6: a profile request carrying a valid id but a slug differing from
the stored canonical slug fails with NotFound (never silently
corrected), and an id absent from the store likewise fails with
NotFound. -/
theorem profile_resolve_notfound (users : List ProfileRecord) (userId : UserId) (userSlug : String) :
    (∀ profile, users.find? (fun u => u.id == userId) = some profile →
      profile.slug ≠ userSlug →
      profile_view_resolve users userId userSlug = Except.error Http404.notFound) ∧
    (users.find? (fun u => u.id == userId) = none →
      profile_view_resolve users userId userSlug = Except.error Http404.notFound) := by
  constructor
  · intro profile hfind hne
    unfold profile_view_resolve
    rw [hfind]
    simp [validate_slug, hne, Except.map]
  · intro hnone
    unfold profile_view_resolve
    rw [hnone]

/-- A one-record identity store for the resolver witnesses. -/
def usersExample : List ProfileRecord := [{ id := 1, slug := "alice" }]

/-- Witness for C6: a stale slug for a valid id and a missing id both
resolve to NotFound. -/
theorem profile_resolve_notfound_witness :
    profile_view_resolve usersExample 1 "bob" = Except.error Http404.notFound ∧
    profile_view_resolve [] 1 "alice" = Except.error Http404.notFound :=
  ⟨(profile_resolve_notfound usersExample 1 "bob").1 { id := 1, slug := "alice" } rfl (by decide),
   (profile_resolve_notfound [] 1 "alice").2 rfl⟩

/-- The profile_view_restricted_visibility decorator (lines 50-60): walk
the navigation pages computed for the viewer and target; on the first
page flagged active, delegate to the wrapped handler; when the loop
finds none, raise Http404. `pages` is the list of is_active flags of the
registry's pages and `handler` the wrapped page handler with the
target's page data (run only when delegation happens). -/
def profile_view_restricted_visibility {α : Type} (pages : List Bool) (handler : Unit → α) :
    Except Http404 α :=
  match pages with
  | [] => Except.error Http404.notFound
  | isActive :: rest =>
    if isActive then Except.ok (handler ())
    else profile_view_restricted_visibility rest handler

/-- C7: when the navigation-page registry reports no active page for the
viewer/target pair, the request fails with NotFound before the page
handler runs, regardless of the page data the handler would produce;
when some page is reported active, the handler is invoked. -/
theorem restricted_visibility_spec {α : Type} (pages : List Bool) (handler : Unit → α) :
    ((∀ p ∈ pages, p = false) →
      profile_view_restricted_visibility pages handler = Except.error Http404.notFound) ∧
    ((∃ p ∈ pages, p = true) →
      profile_view_restricted_visibility pages handler = Except.ok (handler ())) := by
  induction pages with
  | nil =>
    refine ⟨fun _ => rfl, ?_⟩
    rintro ⟨p, hp, _⟩
    exact absurd hp (List.not_mem_nil p)
  | cons q rest ih =>
    constructor
    · intro hall
      have hq : q = false := hall q (List.mem_cons_self q rest)
      subst hq
      simp only [profile_view_restricted_visibility, Bool.false_eq_true, if_false]
      exact ih.1 fun p hp => hall p (List.mem_cons_of_mem _ hp)
    · rintro ⟨p, hp, hptrue⟩
      subst hptrue
      cases hq : q with
      | true => simp [profile_view_restricted_visibility]
      | false =>
        simp only [profile_view_restricted_visibility, Bool.false_eq_true, if_false]
        rcases List.mem_cons.mp hp with h | h
        · exact absurd (h ▸ hq) (by simp)
        · exact ih.2 ⟨true, h, rfl⟩

/-- Witness for C7: all pages hidden yields NotFound; an active page
yields the handler's value. -/
theorem restricted_visibility_witness :
    profile_view_restricted_visibility [false, false] (fun _ => (7 : Nat)) =
      Except.error Http404.notFound ∧
    profile_view_restricted_visibility [false, true] (fun _ => (7 : Nat)) = Except.ok 7 :=
  ⟨(restricted_visibility_spec [false, false] fun _ => (7 : Nat)).1 (by decide),
   (restricted_visibility_spec [false, true] fun _ => (7 : Nat)).2 ⟨true, by decide, rfl⟩⟩

/-- Where a browser client is redirected after a successful action. -/
inductive RedirectTarget where
  | returnPath (path : String)
  | profilePage (userSlug : String) (userId : UserId)
  deriving DecidableEq

/-- The response of an action endpoint: a structured JSON body for a
programmatic client, or a redirect for a browser client. -/
inductive ActionResponse where
  | jsonBody (outcome : Bool) (message : String) (isError : Bool)
  | redirect (target : RedirectTarget)
  deriving DecidableEq

/-- The request facts the response shaping inspects: ajaxCall embeds
request.is_ajax() and returnPath embeds clean_return_path(request),
some exactly when a caller-supplied return path is present and valid. -/
structure ActionRequest where
  ajaxCall : Bool
  returnPath : Option String

/-- The localized confirmation message of follow_user (lines 231-235),
with the target's username substituted. -/
def follow_message (followed : Bool) (username : String) : String :=
  if followed then "You are now following " ++ username ++ "."
  else "You have stopped following " ++ username ++ "."

/-- The result shaping at the tail of follow_user (lines 237-241): the
source tests the bound method object request.is_ajax without calling
it, and the object is always truthy, so the structured dict branch is
always taken and the interactive branch there is dead code. -/
def follow_user_result (followed : Bool) (username : String) : Bool × String :=
  (followed, follow_message followed username)

/-- The response shaping of the action_view decorator (lines 198-210):
a programmatic client receives the structured result with is_error set
to false; otherwise the confirmation message is enqueued for the next
page render and the response redirects to the validated caller-supplied
return path when present, else to the target's canonical profile
location. The second component is the queue of flash messages the
action enqueues. -/
def action_view (req : ActionRequest) (profileSlug : String) (profileId : UserId)
    (result : Bool × String) : ActionResponse × List String :=
  if req.ajaxCall then
    (ActionResponse.jsonBody result.1 result.2 false, [])
  else
    match req.returnPath with
    | some path => (ActionResponse.redirect (RedirectTarget.returnPath path), [result.2])
    | none => (ActionResponse.redirect (RedirectTarget.profilePage profileSlug profileId), [result.2])

/-- C8: a successful action from an asynchronous client yields a
structured body holding the action-outcome boolean and the message with
is_error false (and enqueues nothing); any other client gets the
message enqueued for the next render and a redirect, to the
caller-supplied return path when present and valid and otherwise to the
target's canonical profile location. -/
theorem action_response_spec (req : ActionRequest) (profileSlug : String) (profileId : UserId)
    (outcome : Bool) (message : String) :
    (req.ajaxCall = true →
      action_view req profileSlug profileId (outcome, message) =
        (ActionResponse.jsonBody outcome message false, [])) ∧
    (req.ajaxCall = false →
      (action_view req profileSlug profileId (outcome, message)).2 = [message] ∧
      (∀ path, req.returnPath = some path →
        (action_view req profileSlug profileId (outcome, message)).1 =
          ActionResponse.redirect (RedirectTarget.returnPath path)) ∧
      (req.returnPath = none →
        (action_view req profileSlug profileId (outcome, message)).1 =
          ActionResponse.redirect (RedirectTarget.profilePage profileSlug profileId))) := by
  constructor
  · intro h
    simp [action_view, h]
  · intro h
    cases hrp : req.returnPath with
    | none => simp [action_view, h, hrp]
    | some path =>
      refine ⟨by simp [action_view, h, hrp], ?_, by simp [hrp]⟩
      intro path2 hp2
      cases hp2
      simp [action_view, h, hrp]

/-- Witness for C8: an asynchronous follow action's shaped response. -/
theorem action_response_spec_witness :
    action_view { ajaxCall := true, returnPath := none } "alice" 1
      (follow_user_result true "alice") =
      (ActionResponse.jsonBody true (follow_message true "alice") false, []) :=
  (action_response_spec { ajaxCall := true, returnPath := none } "alice" 1 true
    (follow_message true "alice")).1 rfl

end Misago
